import Mathlib

/-!
Shallow embedding of `core/src/prediction/ProbabilityPredictionStrategy.cpp`
from the grf repository.  C++ `double` values are modelled as exact
rationals (`ℚ`); where IEEE semantics of division by zero matters, a
checked (`Option ℚ`) variant of the computation is also given, with
`none` standing for the NaN/Inf sentinel.
-/

namespace grf

/-- Data accessor collaborator: per-sample outcome (a class label) and a
per-sample weight (`get_outcome`, `get_weight` in the C++ `Data` class). -/
structure Data where
  get_outcome : Nat → Nat
  get_weight : Nat → ℚ

/-- Modelled from the spec: the `PredictionValues` per-leaf value table is
not under `src/`; the spec says it is constructed from the sequence of
per-leaf vectors together with `num_classes`, and exposes `get_num_nodes`,
`empty` and `get`.  A leaf is flagged empty exactly when its stored vector
is the empty vector (leaves recorded as empty carry no allocated vector
beyond the empty marker). -/
structure PredictionValues where
  values : List (List ℚ)
  num_types : Nat

/-- Total leaf count of the table. -/
def PredictionValues.get_num_nodes (t : PredictionValues) : Nat :=
  t.values.length

/-- Emptiness predicate of the table: a leaf is empty iff its stored
vector is the empty vector. -/
def PredictionValues.empty (t : PredictionValues) (node : Nat) : Bool :=
  (t.values.getD node []).isEmpty

/-- Stored statistic for a leaf and a class (out-of-range reads default
to 0; the C++ code never reads out of range on the inputs it is given). -/
def PredictionValues.get (t : PredictionValues) (node cls : Nat) : ℚ :=
  (t.values.getD node []).getD cls 0

/-- The per-leaf accumulation loop of `precompute_prediction_values`
(source lines 105-112): starting from a vector of `num_classes` zeros,
add each sample's weight to the slot of its class, and separately
accumulate the total weight sum. -/
def accumulate_leaf (data : Data) (num_classes : Nat) (leaf_node : List Nat) :
    List ℚ × ℚ :=
  leaf_node.foldl
    (fun p sample =>
      (p.1.set (data.get_outcome sample)
        (p.1.getD (data.get_outcome sample) 0 + data.get_weight sample),
       p.2 + data.get_weight sample))
    (List.replicate num_classes 0, 0)

/-- The body of the per-leaf loop of `precompute_prediction_values`
(source lines 99-122): an empty sample list leaves the entry as the empty
vector; otherwise the per-class weights are accumulated, and if the total
weight is at most `1e-16` in absolute value the loop `continue`s (leaving
the accumulated, un-normalized vector in place); otherwise each slot is
divided by the total weight. -/
def leaf_value (data : Data) (num_classes : Nat) (leaf_node : List Nat) :
    List ℚ :=
  if leaf_node.isEmpty then []
  else
    let acc := accumulate_leaf data num_classes leaf_node
    if |acc.2| ≤ 1 / 10 ^ 16 then acc.1
    else acc.1.map (fun a => a / acc.2)

/-- `ProbabilityPredictionStrategy::precompute_prediction_values`
(source lines 93-125): one entry per input leaf, in input order. -/
def precompute_prediction_values (num_classes : Nat)
    (leaf_samples : List (List Nat)) (data : Data) : PredictionValues :=
  ⟨leaf_samples.map (leaf_value data num_classes), num_classes⟩

/-- `ProbabilityPredictionStrategy::predict` (source lines 31-33). -/
def predict (average : List ℚ) : List ℚ :=
  average

/-- A C++ `double` value that may be NaN. -/
inductive DoubleVal where
  | nan : DoubleVal
  | val : ℚ → DoubleVal
deriving DecidableEq

/-- `ProbabilityPredictionStrategy::compute_error` (source lines 127-133):
a constant single pair of NaNs. -/
def compute_error (sample : Nat) (average : List ℚ)
    (leaf_values : PredictionValues) (data : Data) :
    List (DoubleVal × DoubleVal) :=
  [(DoubleVal.nan, DoubleVal.nan)]

/-- The accumulators of the per-class loop of `compute_variance`
(source lines 43-45): `num_good_groups`, `psi_squared`,
`psi_grouped_squared`, all C++ doubles. -/
structure GroupAccum where
  num_good_groups : ℚ
  psi_squared : ℚ
  psi_grouped_squared : ℚ
deriving DecidableEq

/-- The good-group test of `compute_variance` (source lines 48-53): a
group is good iff none of its `ci_group_size` consecutive leaves is
empty. -/
def good_group (t : PredictionValues) (ci_group_size group : Nat) : Bool :=
  (List.range ci_group_size).all
    (fun j => !(t.empty (group * ci_group_size + j)))

/-- One iteration of the group loop of `compute_variance` (source lines
47-70): a group with an empty leaf is skipped entirely; otherwise the
good-group count is incremented, the squared deviations are added to
`psi_squared`, and the squared group-mean deviation is added to
`psi_grouped_squared`. -/
def group_step (t : PredictionValues) (cls : Nat) (average_outcome : ℚ)
    (ci_group_size : Nat) (st : GroupAccum) (group : Nat) : GroupAccum :=
  if good_group t ci_group_size group then
    let inner := (List.range ci_group_size).foldl
      (fun p j =>
        let psi_1 := t.get (group * ci_group_size + j) cls - average_outcome
        (p.1 + psi_1 * psi_1, p.2 + psi_1))
      (st.psi_squared, 0)
    { num_good_groups := st.num_good_groups + 1
      psi_squared := inner.1
      psi_grouped_squared :=
        st.psi_grouped_squared +
          inner.2 / (ci_group_size : ℚ) * (inner.2 / (ci_group_size : ℚ)) }
  else st

/-- The full group loop of `compute_variance` for one class (source lines
43-70): fold `group_step` over the first `get_num_nodes / ci_group_size`
complete groups. -/
def class_accum (t : PredictionValues) (cls : Nat) (average_outcome : ℚ)
    (ci_group_size : Nat) : GroupAccum :=
  (List.range (t.get_num_nodes / ci_group_size)).foldl
    (group_step t cls average_outcome ci_group_size) ⟨0, 0, 0⟩

/-- `var_between` of `compute_variance` (source line 72). -/
def var_between (t : PredictionValues) (cls : Nat) (average_outcome : ℚ)
    (ci_group_size : Nat) : ℚ :=
  (class_accum t cls average_outcome ci_group_size).psi_grouped_squared /
    (class_accum t cls average_outcome ci_group_size).num_good_groups

/-- `var_total` of `compute_variance` (source line 73). -/
def var_total (t : PredictionValues) (cls : Nat) (average_outcome : ℚ)
    (ci_group_size : Nat) : ℚ :=
  (class_accum t cls average_outcome ci_group_size).psi_squared /
    ((class_accum t cls average_outcome ci_group_size).num_good_groups *
      (ci_group_size : ℚ))

/-- `group_noise` of `compute_variance` (source line 76). -/
def group_noise (t : PredictionValues) (cls : Nat) (average_outcome : ℚ)
    (ci_group_size : Nat) : ℚ :=
  (var_total t cls average_outcome ci_group_size -
    var_between t cls average_outcome ci_group_size) /
    ((ci_group_size : ℚ) - 1)

/-- One class's entry of `compute_variance` (source lines 82-83),
parameterized by the external debiasing collaborator `debias` (the
`bayes_debiaser` member is not under `src/`; per the spec it is an
external collaborator with signature
`debias(var_between, group_noise, good_group_count)`). -/
def class_estimate (debias : ℚ → ℚ → ℚ → ℚ) (t : PredictionValues)
    (cls : Nat) (average_outcome : ℚ) (ci_group_size : Nat) : ℚ :=
  debias (var_between t cls average_outcome ci_group_size)
    (group_noise t cls average_outcome ci_group_size)
    (class_accum t cls average_outcome ci_group_size).num_good_groups

/-- `ProbabilityPredictionStrategy::compute_variance` (source lines
35-87): one debiased estimate per class. -/
def compute_variance (debias : ℚ → ℚ → ℚ → ℚ) (num_classes : Nat)
    (average : List ℚ) (t : PredictionValues) (ci_group_size : Nat) :
    List ℚ :=
  (List.range num_classes).map
    (fun cls => class_estimate debias t cls (average.getD cls 0) ci_group_size)

/-- IEEE-aware division: dividing by zero does not produce a real number
(`none` stands for the NaN/Inf sentinel a C++ double division by zero
yields). -/
def qdiv? (a b : ℚ) : Option ℚ :=
  if b = 0 then none else some (a / b)

/-- The per-class computation of `compute_variance` with IEEE
division-by-zero tracked: any of the three divisions hitting a zero
divisor poisons the class's entry. -/
def class_estimate_checked (debias : ℚ → ℚ → ℚ → ℚ) (t : PredictionValues)
    (cls : Nat) (average_outcome : ℚ) (ci_group_size : Nat) : Option ℚ :=
  (qdiv? (class_accum t cls average_outcome ci_group_size).psi_grouped_squared
      (class_accum t cls average_outcome ci_group_size).num_good_groups).bind
    (fun vb =>
      (qdiv? (class_accum t cls average_outcome ci_group_size).psi_squared
          ((class_accum t cls average_outcome ci_group_size).num_good_groups *
            (ci_group_size : ℚ))).bind
        (fun vt =>
          (qdiv? (vt - vb) ((ci_group_size : ℚ) - 1)).map
            (fun gn =>
              debias vb gn
                (class_accum t cls average_outcome ci_group_size).num_good_groups)))

/-- The all-zero debiasing function: a trivial instance of the spec's
collaborator contract (non-negative output), used to instantiate
theorems that quantify over the collaborator. -/
def zero_debias : ℚ → ℚ → ℚ → ℚ :=
  fun _ _ _ => 0

/-- Two folds over the same list agree when the step functions agree on
every list element at every state. -/
lemma foldl_congr_fun {α β : Type} (f g : α → β → α) :
    ∀ l : List β, (∀ b ∈ l, ∀ a, f a b = g a b) →
      ∀ a, l.foldl f a = l.foldl g a := by
  intro l
  induction l with
  | nil => intro _ _; rfl
  | cons x xs ih =>
    intro h a
    rw [List.foldl_cons, List.foldl_cons, h x (List.mem_cons_self x xs)]
    exact ih (fun b hb a' => h b (List.mem_cons_of_mem x hb) a') _

/-- Two `all`-scans over the same list agree when the predicates agree on
every list element. -/
lemma all_congr_fun {β : Type} (f g : β → Bool) :
    ∀ l : List β, (∀ b ∈ l, f b = g b) → l.all f = l.all g := by
  intro l
  induction l with
  | nil => intro _; rfl
  | cons x xs ih =>
    intro h
    rw [List.all_cons, List.all_cons, h x (List.mem_cons_self x xs),
      ih (fun b hb => h b (List.mem_cons_of_mem x hb))]

/-- Every leaf index touched by a complete group lies below
`n * ci_group_size` when the group index is below `n`. -/
lemma group_index_lt {g j k n : Nat} (hg : g < n) (hj : j < k) :
    g * k + j < n * k := by
  have h1 : g * k + j < (g + 1) * k := by rw [Nat.succ_mul]; omega
  have h2 : (g + 1) * k ≤ n * k := Nat.mul_le_mul_right k hg
  exact lt_of_lt_of_le h1 h2

/-- A data accessor whose single relevant sample has class 0 and the tiny
weight `1e-17` (non-negative, and below the `1e-16` threshold). -/
def tiny_data : Data :=
  ⟨fun _ => 0, fun _ => 1 / 10 ^ 17⟩

/-- A data accessor whose sample `s` has class `s` and weight `5e-18`
(non-negative; two such samples together weigh `1e-17 ≤ 1e-16`). -/
def tiny_data2 : Data :=
  ⟨fun s => s, fun _ => 5 / 10 ^ 18⟩

/-- The four-leaf, two-class table of the spec's concrete scenario:
class-0 frequencies `[0.2, 0.8, 0.3, 0.7]`, class-1 the complements. -/
def tableC2 : PredictionValues :=
  ⟨[[1/5, 4/5], [4/5, 1/5], [3/10, 7/10], [7/10, 3/10]], 2⟩

/-- A two-leaf, one-class table whose first leaf is empty: its only group
(`ci_group_size = 2`) is bad. -/
def table_with_empty_leaf : PredictionValues :=
  ⟨[[], [1]], 1⟩

/-- A two-leaf, one-class table with no empty leaf: its only group
(`ci_group_size = 2`) is good. -/
def table_one_good_group : PredictionValues :=
  ⟨[[1/2], [1/2]], 1⟩

/-- Claim C1: the code does NOT record a non-empty-sample leaf of tiny
total weight as empty.  With one sample of weight `1e-17` (absolute value
at most `1e-16`), the leaf's vector has already been resized to
`num_classes` slots when the tiny-weight check fires, and the `continue`
leaves it in place, so the leaf's `empty` predicate is false.  (The
source's own comment on the check says "treat the leaf as empty".) -/
theorem tiny_weight_leaf_not_flagged_empty :
    (precompute_prediction_values 1 [[0]] tiny_data).empty 0 = false := by
  simp only [precompute_prediction_values, PredictionValues.empty, leaf_value,
    accumulate_leaf, tiny_data, List.map, List.getD, List.foldl]
  split
  · simp_all
  · split <;> simp

/-- Claim C5: a leaf that is not flagged empty can fail to hold a
probability vector.  With two samples of class 0 and 1, each of
non-negative weight `5e-18` (total `1e-17 ≤ 1e-16`), the leaf is not
flagged empty, yet its stored entries are the raw, un-normalized
accumulated weights, which sum to `1e-17`, not 1. -/
theorem tiny_weight_leaf_values_not_normalized :
    (precompute_prediction_values 2 [[0, 1]] tiny_data2).empty 0 = false ∧
    ((precompute_prediction_values 2 [[0, 1]] tiny_data2).values.getD 0 []).sum =
      1 / 10 ^ 17 ∧
    ((precompute_prediction_values 2 [[0, 1]] tiny_data2).values.getD 0 []).sum ≠ 1 := by
  refine ⟨?_, ?_, ?_⟩
  · simp only [precompute_prediction_values, PredictionValues.empty, leaf_value,
      accumulate_leaf, tiny_data2, List.map, List.getD, List.foldl]
    split
    · simp_all
    · split <;> simp
  all_goals
  · simp only [precompute_prediction_values, leaf_value, accumulate_leaf,
      tiny_data2, List.map, List.getD, List.foldl, List.set]
    split
    · simp_all
    · split
      · norm_num
      · rename_i h
        exact absurd (by rw [abs_of_nonneg] <;> norm_num) h

/-- Claim C2: on the spec's concrete scenario (2 classes,
`ci_group_size = 2`, `AverageVector = [1/2, 1/2]`, class-0 frequencies
`[0.2, 0.8, 0.3, 0.7]`), the class-0 intermediates are
`var_between = 0`, `var_total = 13/200 = 0.065`, `group_noise = 13/200`,
and the class-0 output is `debias 0 (13/200) 2`, which under the
collaborator's contract (non-negativity, and the symmetric-case bound
stated by the spec) lies between 0 and `var_total`. -/
theorem concrete_scenario_variance (debias : ℚ → ℚ → ℚ → ℚ)
    (hpos : ∀ a b c, 0 ≤ debias a b c)
    (hsym : debias 0 (13/200) 2 ≤ 13/200) :
    var_between tableC2 0 (1/2) 2 = 0 ∧
    var_total tableC2 0 (1/2) 2 = 13/200 ∧
    group_noise tableC2 0 (1/2) 2 = 13/200 ∧
    (compute_variance debias 2 [1/2, 1/2] tableC2 2).getD 0 0 =
      debias 0 (13/200) 2 ∧
    0 ≤ (compute_variance debias 2 [1/2, 1/2] tableC2 2).getD 0 0 ∧
    (compute_variance debias 2 [1/2, 1/2] tableC2 2).getD 0 0 ≤
      var_total tableC2 0 (1/2) 2 := by
  have h1 : var_between tableC2 0 (1/2) 2 = 0 := by
    norm_num [var_between, class_accum, group_step, good_group,
      PredictionValues.get_num_nodes, PredictionValues.empty, PredictionValues.get,
      tableC2, List.range_succ, List.getD]
  have h2 : var_total tableC2 0 (1/2) 2 = 13/200 := by
    norm_num [var_total, class_accum, group_step, good_group,
      PredictionValues.get_num_nodes, PredictionValues.empty, PredictionValues.get,
      tableC2, List.range_succ, List.getD]
  have hn : (class_accum tableC2 0 (1/2) 2).num_good_groups = 2 := by
    norm_num [class_accum, group_step, good_group,
      PredictionValues.get_num_nodes, PredictionValues.empty, PredictionValues.get,
      tableC2, List.range_succ, List.getD]
  have h3 : group_noise tableC2 0 (1/2) 2 = 13/200 := by
    unfold group_noise
    rw [h1, h2]
    norm_num
  have hout : (compute_variance debias 2 [1/2, 1/2] tableC2 2).getD 0 0 =
      debias 0 (13/200) 2 := by
    have hce : (compute_variance debias 2 [1/2, 1/2] tableC2 2).getD 0 0 =
        class_estimate debias tableC2 0 (1/2) 2 := rfl
    rw [hce]
    unfold class_estimate
    rw [h1, h3, hn]
  exact ⟨h1, h2, h3, hout, hout ▸ hpos 0 (13/200) 2,
    by rw [hout, h2]; exact hsym⟩

/-- Witness for C2: the all-zero debiaser satisfies both collaborator
hypotheses, and the theorem applies to it. -/
theorem concrete_scenario_variance_witness :
    (∀ a b c, 0 ≤ zero_debias a b c) ∧
    zero_debias 0 (13/200) 2 ≤ 13/200 ∧
    (var_between tableC2 0 (1/2) 2 = 0 ∧
      var_total tableC2 0 (1/2) 2 = 13/200 ∧
      group_noise tableC2 0 (1/2) 2 = 13/200 ∧
      (compute_variance zero_debias 2 [1/2, 1/2] tableC2 2).getD 0 0 =
        zero_debias 0 (13/200) 2 ∧
      0 ≤ (compute_variance zero_debias 2 [1/2, 1/2] tableC2 2).getD 0 0 ∧
      (compute_variance zero_debias 2 [1/2, 1/2] tableC2 2).getD 0 0 ≤
        var_total tableC2 0 (1/2) 2) :=
  ⟨fun _ _ _ => le_refl 0, by norm_num [zero_debias],
   concrete_scenario_variance zero_debias (fun _ _ _ => le_refl 0)
     (by norm_num [zero_debias])⟩

/-- Claim C3: a group containing an empty leaf is skipped whole: it
changes none of `num_good_groups`, `psi_squared`, `psi_grouped_squared`. -/
theorem empty_leaf_group_contributes_nothing (t : PredictionValues)
    (cls : Nat) (average_outcome : ℚ) (ci_group_size : Nat) (st : GroupAccum)
    (group : Nat)
    (h : ∃ j, j < ci_group_size ∧
      t.empty (group * ci_group_size + j) = true) :
    group_step t cls average_outcome ci_group_size st group = st := by
  obtain ⟨j, hj, hemp⟩ := h
  have hg : good_group t ci_group_size group = false := by
    refine Bool.eq_false_iff.mpr (fun hall => ?_)
    rw [good_group, List.all_eq_true] at hall
    have := hall j (List.mem_range.mpr hj)
    rw [hemp] at this
    exact Bool.noConfusion this
  simp [group_step, hg]

/-- Witness for C3: the single group of `table_with_empty_leaf` contains
the empty leaf 0, and stepping it leaves the zero accumulator unchanged. -/
theorem empty_leaf_group_contributes_nothing_witness :
    (∃ j, j < 2 ∧ table_with_empty_leaf.empty (0 * 2 + j) = true) ∧
    group_step table_with_empty_leaf 0 0 2 ⟨0, 0, 0⟩ 0 = ⟨0, 0, 0⟩ :=
  ⟨⟨0, by norm_num, rfl⟩,
   empty_leaf_group_contributes_nothing table_with_empty_leaf 0 0 2 ⟨0, 0, 0⟩ 0
     ⟨0, by norm_num, rfl⟩⟩

/-- Claim C4: `compute_variance` returns exactly `num_classes` entries,
and under the collaborator contract (debias is non-negative) every class
with a positive good-group count receives a non-negative entry. -/
theorem compute_variance_length_and_nonneg (debias : ℚ → ℚ → ℚ → ℚ)
    (num_classes : Nat) (average : List ℚ) (t : PredictionValues)
    (ci_group_size : Nat) (hpos : ∀ a b c, 0 ≤ debias a b c) :
    (compute_variance debias num_classes average t ci_group_size).length =
      num_classes ∧
    ∀ cls, cls < num_classes →
      0 < (class_accum t cls (average.getD cls 0) ci_group_size).num_good_groups →
      0 ≤ (compute_variance debias num_classes average t ci_group_size).getD cls 0 := by
  constructor
  · simp [compute_variance]
  · intro cls hcls _
    have hentry :
        (compute_variance debias num_classes average t ci_group_size).getD cls 0 =
          class_estimate debias t cls (average.getD cls 0) ci_group_size := by
      simp [compute_variance, List.getD_eq_getElem?_getD, List.getElem?_map,
        List.getElem?_range, hcls]
    rw [hentry]
    exact hpos _ _ _

/-- Witness for C4: the all-zero debiaser and a one-class table whose
single group is good. -/
theorem compute_variance_length_and_nonneg_witness :
    (∀ a b c, 0 ≤ zero_debias a b c) ∧
    0 < (class_accum table_one_good_group 0 (([1/2] : List ℚ).getD 0 0) 2).num_good_groups ∧
    (compute_variance zero_debias 1 [1/2] table_one_good_group 2).length = 1 ∧
    0 ≤ (compute_variance zero_debias 1 [1/2] table_one_good_group 2).getD 0 0 :=
  ⟨fun _ _ _ => le_refl 0,
   by norm_num [class_accum, group_step, good_group,
     PredictionValues.get_num_nodes, PredictionValues.empty, PredictionValues.get,
     table_one_good_group, List.range_succ, List.getD],
   (compute_variance_length_and_nonneg zero_debias 1 [1/2] table_one_good_group 2
     (fun _ _ _ => le_refl 0)).1,
   (compute_variance_length_and_nonneg zero_debias 1 [1/2] table_one_good_group 2
     (fun _ _ _ => le_refl 0)).2 0 (by norm_num)
     (by norm_num [class_accum, group_step, good_group,
       PredictionValues.get_num_nodes, PredictionValues.empty, PredictionValues.get,
       table_one_good_group, List.range_succ, List.getD])⟩

/-- Claim C6: when a class's good-group count is zero, the divisors of
both `var_between` and `var_total` are zero, and under IEEE semantics
(division by zero tracked as `none`) the class's entry is the undefined
sentinel, with no guard raised. -/
theorem zero_good_groups_division_by_zero (debias : ℚ → ℚ → ℚ → ℚ)
    (t : PredictionValues) (cls : Nat) (average_outcome : ℚ)
    (ci_group_size : Nat)
    (h : (class_accum t cls average_outcome ci_group_size).num_good_groups = 0) :
    (class_accum t cls average_outcome ci_group_size).num_good_groups *
      (ci_group_size : ℚ) = 0 ∧
    class_estimate_checked debias t cls average_outcome ci_group_size = none := by
  refine ⟨by rw [h, zero_mul], ?_⟩
  unfold class_estimate_checked qdiv?
  rw [h]
  simp

/-- Witness for C6: in `table_with_empty_leaf` the single group is bad,
so the good-group count is zero and the checked estimate is `none`. -/
theorem zero_good_groups_division_by_zero_witness :
    (class_accum table_with_empty_leaf 0 0 2).num_good_groups = 0 ∧
    class_estimate_checked zero_debias table_with_empty_leaf 0 0 2 = none :=
  ⟨by norm_num [class_accum, group_step, good_group,
     PredictionValues.get_num_nodes, PredictionValues.empty,
     table_with_empty_leaf, List.range_succ, List.getD],
   (zero_good_groups_division_by_zero zero_debias table_with_empty_leaf 0 0 2
     (by norm_num [class_accum, group_step, good_group,
       PredictionValues.get_num_nodes, PredictionValues.empty,
       table_with_empty_leaf, List.range_succ, List.getD])).2⟩

/-- Claim C7: `predict` is the identity mapping on its input
`AverageVector`; it performs no additional transformation. -/
theorem predict_is_identity (average : List ℚ) : predict average = average :=
  rfl

/-- Claim C8: `compute_error` returns a list containing exactly one pair,
both of whose components are NaN, independently of every input. -/
theorem compute_error_constant_nan (sample : Nat) (average : List ℚ)
    (leaf_values : PredictionValues) (data : Data) (sample' : Nat)
    (average' : List ℚ) (leaf_values' : PredictionValues) (data' : Data) :
    compute_error sample average leaf_values data =
      [(DoubleVal.nan, DoubleVal.nan)] ∧
    compute_error sample average leaf_values data =
      compute_error sample' average' leaf_values' data' :=
  ⟨rfl, rfl⟩

/-- Three-leaf one-class table whose trailing leaf (index 2, outside the
single complete group of size 2) is non-empty. -/
def tableA : PredictionValues :=
  ⟨[[1], [2], [3]], 1⟩

/-- Three-leaf one-class table agreeing with `tableA` on leaves 0 and 1
but whose trailing leaf is empty. -/
def tableB : PredictionValues :=
  ⟨[[1], [2], []], 1⟩

/-- Claim C9: `compute_variance` reads only the first
`get_num_nodes / ci_group_size` complete groups: two tables with the
same leaf count that agree (emptiness and stored values) on every leaf
index below `get_num_nodes / ci_group_size * ci_group_size` produce the
same output, so a trailing partial group never influences the result. -/
theorem compute_variance_ignores_trailing_partial_group
    (debias : ℚ → ℚ → ℚ → ℚ) (num_classes : Nat) (average : List ℚ)
    (t₁ t₂ : PredictionValues) (ci_group_size : Nat)
    (hn : t₁.get_num_nodes = t₂.get_num_nodes)
    (hagree : ∀ i, i < t₁.get_num_nodes / ci_group_size * ci_group_size →
      t₁.empty i = t₂.empty i ∧ ∀ c, t₁.get i c = t₂.get i c) :
    compute_variance debias num_classes average t₁ ci_group_size =
      compute_variance debias num_classes average t₂ ci_group_size := by
  have hacc : ∀ cls avg, class_accum t₁ cls avg ci_group_size =
      class_accum t₂ cls avg ci_group_size := by
    intro cls avg
    unfold class_accum
    rw [← hn]
    refine foldl_congr_fun _ _ _ (fun g hg st => ?_) _
    have hgn : g < t₁.get_num_nodes / ci_group_size := List.mem_range.mp hg
    have hidx : ∀ j, j < ci_group_size →
        g * ci_group_size + j <
          t₁.get_num_nodes / ci_group_size * ci_group_size :=
      fun j hj => group_index_lt hgn hj
    have hgood : good_group t₁ ci_group_size g = good_group t₂ ci_group_size g := by
      unfold good_group
      refine all_congr_fun _ _ _ (fun j hj => ?_)
      rw [(hagree _ (hidx j (List.mem_range.mp hj))).1]
    have hin : (List.range ci_group_size).foldl
        (fun p j =>
          let psi_1 := t₁.get (g * ci_group_size + j) cls - avg
          (p.1 + psi_1 * psi_1, p.2 + psi_1)) (st.psi_squared, 0) =
        (List.range ci_group_size).foldl
        (fun p j =>
          let psi_1 := t₂.get (g * ci_group_size + j) cls - avg
          (p.1 + psi_1 * psi_1, p.2 + psi_1)) (st.psi_squared, 0) := by
      refine foldl_congr_fun _ _ _ (fun j hj p => ?_) _
      have := (hagree _ (hidx j (List.mem_range.mp hj))).2 cls
      simp only [this]
    simp only [group_step, hgood]
    refine if_congr Iff.rfl ?_ rfl
    rw [hin]
  have key : ∀ cls, class_estimate debias t₁ cls (average.getD cls 0) ci_group_size =
      class_estimate debias t₂ cls (average.getD cls 0) ci_group_size := by
    intro cls
    simp only [class_estimate, group_noise, var_total, var_between]
    rw [hacc cls (average.getD cls 0)]
  simp only [compute_variance]
  exact congrArg (fun f => List.map f (List.range num_classes)) (funext key)

/-- Witness for C9: `tableA` and `tableB` have 3 leaves, agree on the
two leaves of the single complete group of size 2, and differ on the
trailing leaf (non-empty `[3]` versus empty), yet `compute_variance`
gives the same output for both. -/
theorem compute_variance_ignores_trailing_partial_group_witness :
    tableA.get_num_nodes = tableB.get_num_nodes ∧
    (∀ i, i < tableA.get_num_nodes / 2 * 2 →
      tableA.empty i = tableB.empty i ∧ ∀ c, tableA.get i c = tableB.get i c) ∧
    compute_variance zero_debias 1 [0] tableA 2 =
      compute_variance zero_debias 1 [0] tableB 2 := by
  have hagree : ∀ i, i < tableA.get_num_nodes / 2 * 2 →
      tableA.empty i = tableB.empty i ∧ ∀ c, tableA.get i c = tableB.get i c := by
    intro i hi
    have hi2 : i < 2 := by
      simpa [tableA, PredictionValues.get_num_nodes] using hi
    interval_cases i
    · exact ⟨rfl, fun c => rfl⟩
    · exact ⟨rfl, fun c => rfl⟩
  exact ⟨rfl, hagree,
    compute_variance_ignores_trailing_partial_group zero_debias 1 [0]
      tableA tableB 2 rfl hagree⟩

/-- A data accessor assigning every sample class 0 and weight 1. -/
def data_unit : Data :=
  ⟨fun _ => 0, fun _ => 1⟩

/-- Claim C10: `precompute_prediction_values` returns one entry per input
leaf, in input order (entry `i` is computed from leaf `i` alone), and a
leaf with an empty sample list gets the empty vector as its entry,
independently of the data accessor (the accessor is never queried for
such a leaf). -/
theorem precompute_one_entry_per_leaf (num_classes : Nat)
    (leaf_samples : List (List Nat)) (data : Data) :
    (precompute_prediction_values num_classes leaf_samples data).values.length =
      leaf_samples.length ∧
    (∀ i, i < leaf_samples.length →
      (precompute_prediction_values num_classes leaf_samples data).values.getD i [] =
        leaf_value data num_classes (leaf_samples.getD i [])) ∧
    (∀ i, i < leaf_samples.length → leaf_samples.getD i [] = [] →
      (precompute_prediction_values num_classes leaf_samples data).values.getD i [] =
        [] ∧
      ∀ data' : Data,
        (precompute_prediction_values num_classes leaf_samples data').values.getD i [] =
          []) := by
  have hentry : ∀ (d : Data) i, i < leaf_samples.length →
      (precompute_prediction_values num_classes leaf_samples d).values.getD i [] =
        leaf_value d num_classes (leaf_samples.getD i []) := by
    intro d i hi
    simp [precompute_prediction_values, List.getD_eq_getElem?_getD,
      List.getElem?_map, List.getElem?_eq_getElem hi]
  refine ⟨by simp [precompute_prediction_values], hentry data, ?_⟩
  intro i hi hempty
  have hz : ∀ d : Data,
      (precompute_prediction_values num_classes leaf_samples d).values.getD i [] =
        [] := by
    intro d
    rw [hentry d i hi, hempty]
    rfl
  exact ⟨hz data, hz⟩

/-- Witness for C10: on leaves `[[0], []]`, the second leaf has no
samples and its entry is the empty vector. -/
theorem precompute_one_entry_per_leaf_witness :
    1 < ([[0], []] : List (List Nat)).length ∧
    ([[0], []] : List (List Nat)).getD 1 [] = [] ∧
    (precompute_prediction_values 2 [[0], []] data_unit).values.getD 1 [] = [] :=
  ⟨by norm_num, rfl,
   ((precompute_one_entry_per_leaf 2 [[0], []] data_unit).2.2 1
     (by norm_num) rfl).1⟩

end grf
